/-
Verification of the Xmmersia HubCore action-dispatch and routing pipeline.

Shallow embedding of src/hubcore: config.py (SkillExposure, HubAction,
AuthConfig, ConsentConfig, AgentConnection), router.py (HubRouter),
auth.py (AuthManager), consent.py (ConsentManager), base_hub.py
(BaseHub.handle_action).

Modelling conventions:
- Python dicts with string keys are association lists with unique keys;
  dict literal update ({**a, **b}) is a left fold of per-key assignment.
- JSON values are the inductive `J`.
- Wall-clock time is a natural number of seconds passed in explicitly
  (datetime.now() becomes a `now` parameter; timedelta(minutes=15) is 900,
  timedelta(hours=h) is h * 3600); isoformat() is rendered as the decimal
  string of the timestamp.
- Random token generation (secrets.token_urlsafe, uuid.uuid4) is passed in
  as explicit string parameters.
- The network (httpx) is an oracle `net : String → J → NetResult` mapping
  an agent URL and the posted JSON-RPC message to an outcome; observable
  effects (hook invocations, network sends, precondition evaluations) are
  recorded in an event trace.
- Python exceptions are the inductive `PyErr`; fallible code returns
  `Except PyErr _`.
-/
import Mathlib

set_option maxRecDepth 10000

/-- A JSON value, as produced by `response.json()` and carried in the
parameter/result bags of the pipeline. Objects are association lists of
string keys (unique keys by convention, as in a Python dict). -/
inductive J where
  | null
  | bool (b : Bool)
  | num (n : Int)
  | str (s : String)
  | arr (xs : List J)
  | obj (kvs : List (String × J))

mutual
/-- Decidable equality of JSON values. -/
def J.decEq : (a b : J) → Decidable (a = b)
  | .null, .null => isTrue rfl
  | .bool a, .bool b =>
    if h : a = b then isTrue (h ▸ rfl)
    else isFalse (fun hh => h (J.bool.inj hh))
  | .num a, .num b =>
    if h : a = b then isTrue (h ▸ rfl)
    else isFalse (fun hh => h (J.num.inj hh))
  | .str a, .str b =>
    if h : a = b then isTrue (h ▸ rfl)
    else isFalse (fun hh => h (J.str.inj hh))
  | .arr xs, .arr ys =>
    match J.decEqList xs ys with
    | isTrue h => isTrue (h ▸ rfl)
    | isFalse h => isFalse (fun hh => h (J.arr.inj hh))
  | .obj xs, .obj ys =>
    match J.decEqFields xs ys with
    | isTrue h => isTrue (h ▸ rfl)
    | isFalse h => isFalse (fun hh => h (J.obj.inj hh))
  | .null, .bool _ | .null, .num _ | .null, .str _ | .null, .arr _
  | .null, .obj _ | .bool _, .null | .bool _, .num _ | .bool _, .str _
  | .bool _, .arr _ | .bool _, .obj _ | .num _, .null | .num _, .bool _
  | .num _, .str _ | .num _, .arr _ | .num _, .obj _ | .str _, .null
  | .str _, .bool _ | .str _, .num _ | .str _, .arr _ | .str _, .obj _
  | .arr _, .null | .arr _, .bool _ | .arr _, .num _ | .arr _, .str _
  | .arr _, .obj _ | .obj _, .null | .obj _, .bool _ | .obj _, .num _
  | .obj _, .str _ | .obj _, .arr _ => isFalse (fun h => J.noConfusion h)

/-- Decidable equality of JSON arrays. -/
def J.decEqList : (xs ys : List J) → Decidable (xs = ys)
  | [], [] => isTrue rfl
  | [], _ :: _ => isFalse (fun h => List.noConfusion h)
  | _ :: _, [] => isFalse (fun h => List.noConfusion h)
  | x :: xs, y :: ys =>
    match J.decEq x y with
    | isFalse h => isFalse (fun hh => h (List.cons.inj hh).1)
    | isTrue h1 =>
      match J.decEqList xs ys with
      | isTrue h2 => isTrue (by rw [h1, h2])
      | isFalse h => isFalse (fun hh => h (List.cons.inj hh).2)

/-- Decidable equality of JSON object field lists. -/
def J.decEqFields : (xs ys : List (String × J)) → Decidable (xs = ys)
  | [], [] => isTrue rfl
  | [], _ :: _ => isFalse (fun h => List.noConfusion h)
  | _ :: _, [] => isFalse (fun h => List.noConfusion h)
  | (k1, v1) :: xs, (k2, v2) :: ys =>
    if hk : k1 = k2 then
      match J.decEq v1 v2 with
      | isFalse h =>
        isFalse (fun hh => h (congrArg Prod.snd (List.cons.inj hh).1))
      | isTrue hv =>
        match J.decEqFields xs ys with
        | isTrue ht => isTrue (by rw [hk, hv, ht])
        | isFalse h => isFalse (fun hh => h (List.cons.inj hh).2)
    else isFalse (fun hh => hk (congrArg Prod.fst (List.cons.inj hh).1))
end

instance : DecidableEq J := J.decEq

/-- Python truthiness (`bool(v)`) of a JSON value. -/
def J.truthy : J → Bool
  | .null => false
  | .bool b => b
  | .num n => n != 0
  | .str s => !s.data.isEmpty
  | .arr xs => !xs.isEmpty
  | .obj kvs => !kvs.isEmpty

/-- Dict lookup `d.get(k)` on an association list: the value at the first
matching key, if any. -/
def lookupKey {α : Type} (d : List (String × α)) (k : String) : Option α :=
  (d.find? (fun p => p.1 == k)).map Prod.snd

/-- Dict lookup with default, `d.get(k, dflt)`. -/
def getKeyD {α : Type} (d : List (String × α)) (k : String) (dflt : α) : α :=
  (lookupKey d k).getD dflt

/-- Dict membership `k in d`. -/
def hasKey {α : Type} (d : List (String × α)) (k : String) : Bool :=
  d.any (fun p => p.1 == k)

/-- Dict assignment `d[k] = v`: replaces the value at an existing key in
place (keys are unique, so the first match is the only one), otherwise
appends the new entry (Python dict insertion order). -/
def setKey {α : Type} : List (String × α) → String → α → List (String × α)
  | [], k, v => [(k, v)]
  | p :: d, k, v => if p.1 == k then (k, v) :: d else p :: setKey d k v

/-- Dict update: `{**d, **u}` builds on `d` and assigns every entry of `u`
in order, so entries of `u` override entries of `d` at the same key. -/
def dictUpdate {α : Type} (d u : List (String × α)) : List (String × α) :=
  u.foldl (fun acc p => setKey acc p.1 p.2) d

/-- Dict deletion `del d[k]`. -/
def delKey {α : Type} : List (String × α) → String → List (String × α)
  | [], _ => []
  | p :: d, k => if p.1 == k then delKey d k else p :: delKey d k

/-- Whether the first character list is an initial segment of the second. -/
def charsStartWith : List Char → List Char → Bool
  | [], _ => true
  | _ :: _, [] => false
  | a :: as, b :: bs => a == b && charsStartWith as bs

/-- Whether the first character list occurs contiguously in the second
(Python substring membership). -/
def charsContain (needle : List Char) : List Char → Bool
  | [] => charsStartWith needle []
  | c :: cs => charsStartWith needle (c :: cs) || charsContain needle cs

/-- Total field projection used only to state properties over values this
development builds itself (the outbound envelope and the fully constructed
result objects): the field's value on an object, the default otherwise.
The Python operations of the source (`.get`, `in`, subscripts), which can
raise on non-dict receivers, are modelled separately by pyGet, pyContains
and pySubscript below. -/
def J.getD (v : J) (k : String) (dflt : J) : J :=
  match v with
  | .obj kvs => getKeyD kvs k dflt
  | _ => dflt

mutual
/-- Python `repr()` of a JSON value (used only to render error messages). -/
def pyRepr : J → String
  | .null => "None"
  | .bool true => "True"
  | .bool false => "False"
  | .num n => toString n
  | .str s => "'" ++ s ++ "'"
  | .arr xs => "[" ++ pyReprSeq xs ++ "]"
  | .obj kvs => "\x7b" ++ pyReprFields kvs ++ "\x7d"

/-- Comma-separated reprs of array elements. -/
def pyReprSeq : List J → String
  | [] => ""
  | [x] => pyRepr x
  | x :: xs => pyRepr x ++ ", " ++ pyReprSeq xs

/-- Comma-separated reprs of object fields. -/
def pyReprFields : List (String × J) → String
  | [] => ""
  | [(k, v)] => "'" ++ k ++ "': " ++ pyRepr v
  | (k, v) :: kvs => "'" ++ k ++ "': " ++ pyRepr v ++ ", " ++ pyReprFields kvs
end

/-- Python `str()` of a JSON value (f-string interpolation). -/
def pyStr : J → String
  | .str s => s
  | v => pyRepr v

/-
SHA-256 (hashlib.sha256), over bytes as naturals below 256, with 32-bit
words as naturals reduced modulo 2^32. Used by AuthManager._email_to_user_id.
-/

/-- 2^32, the modulus for 32-bit word arithmetic. -/
def M32 : Nat := 4294967296

/-- Right rotation of a 32-bit word by `n` bits. -/
def rotr32 (n x : Nat) : Nat := ((x >>> n) ||| (x <<< (32 - n))) % M32

/-- SHA-256 small sigma 0. -/
def smallSigma0 (x : Nat) : Nat := (rotr32 7 x) ^^^ (rotr32 18 x) ^^^ (x >>> 3)

/-- SHA-256 small sigma 1. -/
def smallSigma1 (x : Nat) : Nat := (rotr32 17 x) ^^^ (rotr32 19 x) ^^^ (x >>> 10)

/-- SHA-256 big sigma 0. -/
def bigSigma0 (x : Nat) : Nat := (rotr32 2 x) ^^^ (rotr32 13 x) ^^^ (rotr32 22 x)

/-- SHA-256 big sigma 1. -/
def bigSigma1 (x : Nat) : Nat := (rotr32 6 x) ^^^ (rotr32 11 x) ^^^ (rotr32 25 x)

/-- SHA-256 choice function. -/
def chWord (e f g : Nat) : Nat := (e &&& f) ^^^ ((e ^^^ 4294967295) &&& g)

/-- SHA-256 majority function. -/
def majWord (a b c : Nat) : Nat := (a &&& b) ^^^ (a &&& c) ^^^ (b &&& c)

/-- The 64 SHA-256 round constants (decimal). -/
def sha256K : List Nat :=
  [1116352408, 1899447441, 3049323471, 3921009573,
   961987163, 1508970993, 2453635748, 2870763221,
   3624381080, 310598401, 607225278, 1426881987,
   1925078388, 2162078206, 2614888103, 3248222580,
   3835390401, 4022224774, 264347078, 604807628,
   770255983, 1249150122, 1555081692, 1996064986,
   2554220882, 2821834349, 2952996808, 3210313671,
   3336571891, 3584528711, 113926993, 338241895,
   666307205, 773529912, 1294757372, 1396182291,
   1695183700, 1986661051, 2177026350, 2456956037,
   2730485921, 2820302411, 3259730800, 3345764771,
   3516065817, 3600352804, 4094571909, 275423344,
   430227734, 506948616, 659060556, 883997877,
   958139571, 1322822218, 1537002063, 1747873779,
   1955562222, 2024104815, 2227730452, 2361852424,
   2428436474, 2756734187, 3204031479, 3329325298]

/-- The eight working hash words of SHA-256. -/
structure Hash8 where
  w0 : Nat
  w1 : Nat
  w2 : Nat
  w3 : Nat
  w4 : Nat
  w5 : Nat
  w6 : Nat
  w7 : Nat

/-- The SHA-256 initial hash value. -/
def sha256Init : Hash8 :=
  ⟨1779033703, 3144134277, 1013904242, 2773480762,
   1359893119, 2600822924, 528734635, 1541459225⟩

/-- Big-endian 8-byte encoding of a length in bits. -/
def lenBytes64 (n : Nat) : List Nat :=
  [(n >>> 56) % 256, (n >>> 48) % 256, (n >>> 40) % 256, (n >>> 32) % 256,
   (n >>> 24) % 256, (n >>> 16) % 256, (n >>> 8) % 256, n % 256]

/-- SHA-256 message padding: append 0x80, zero bytes up to 56 mod 64, then
the 8-byte big-endian bit length. -/
def sha256Pad (msg : List Nat) : List Nat :=
  let padZeros := (120 - ((msg.length + 1) % 64)) % 64
  msg ++ [128] ++ List.replicate padZeros 0 ++ lenBytes64 (8 * msg.length)

/-- Group bytes into big-endian 32-bit words. -/
def bytesToWords : List Nat → List Nat
  | b0 :: b1 :: b2 :: b3 :: rest =>
    (((b0 * 256 + b1) * 256 + b2) * 256 + b3) :: bytesToWords rest
  | _ => []

/-- Split a byte list into 64-byte blocks, with fuel bounding the number of
blocks (structural recursion so that the kernel can evaluate it). -/
def chunk64F : Nat → List Nat → List (List Nat)
  | 0, _ => []
  | _, [] => []
  | fuel + 1, l => l.take 64 :: chunk64F fuel (l.drop 64)

/-- Split a byte list into 64-byte blocks. -/
def chunk64 (l : List Nat) : List (List Nat) :=
  chunk64F l.length l

/-- Extend the 16 words of a block to the 64-word message schedule. -/
def extendSchedule (w16 : List Nat) : Array Nat :=
  (List.range 48).foldl
    (fun w i =>
      let t := i + 16
      w.push ((smallSigma1 (w.getD (t - 2) 0) + w.getD (t - 7) 0 +
        smallSigma0 (w.getD (t - 15) 0) + w.getD (t - 16) 0) % M32))
    (Array.mk w16)

/-- One SHA-256 block compression. -/
def sha256Compress (hs : Hash8) (block : List Nat) : Hash8 :=
  let w := extendSchedule (bytesToWords block)
  let st := (List.range 64).foldl
    (fun st t =>
      let (a, b, c, d, e, f, g, h) := st
      let t1 := (h + bigSigma1 e + chWord e f g + sha256K.getD t 0 +
        w.getD t 0) % M32
      let t2 := (bigSigma0 a + majWord a b c) % M32
      ((t1 + t2) % M32, a, b, c, (d + t1) % M32, e, f, g))
    ((hs.w0, hs.w1, hs.w2, hs.w3, hs.w4, hs.w5, hs.w6, hs.w7) :
      Nat × Nat × Nat × Nat × Nat × Nat × Nat × Nat)
  let (a, b, c, d, e, f, g, h) := st
  ⟨(hs.w0 + a) % M32, (hs.w1 + b) % M32, (hs.w2 + c) % M32, (hs.w3 + d) % M32,
   (hs.w4 + e) % M32, (hs.w5 + f) % M32, (hs.w6 + g) % M32, (hs.w7 + h) % M32⟩

/-- The SHA-256 digest of a byte string, as eight 32-bit words. -/
def sha256Words (msg : List Nat) : Hash8 :=
  (chunk64 (sha256Pad msg)).foldl sha256Compress sha256Init

/-- Lowercase hex digit for a value below 16. -/
def hexDigitChar (n : Nat) : Char :=
  ("0123456789abcdef".data).getD n '0'

/-- Eight lowercase hex characters of a 32-bit word, most significant first. -/
def hex8Chars (x : Nat) : List Char :=
  [hexDigitChar ((x >>> 28) % 16), hexDigitChar ((x >>> 24) % 16),
   hexDigitChar ((x >>> 20) % 16), hexDigitChar ((x >>> 16) % 16),
   hexDigitChar ((x >>> 12) % 16), hexDigitChar ((x >>> 8) % 16),
   hexDigitChar ((x >>> 4) % 16), hexDigitChar (x % 16)]

/-- The character sequence of hashlib.sha256(msg).hexdigest(). -/
def sha256HexChars (msg : List Nat) : List Char :=
  let hs := sha256Words msg
  hex8Chars hs.w0 ++ hex8Chars hs.w1 ++ hex8Chars hs.w2 ++ hex8Chars hs.w3 ++
  hex8Chars hs.w4 ++ hex8Chars hs.w5 ++ hex8Chars hs.w6 ++ hex8Chars hs.w7

/-- UTF-8 encoding of one character (str.encode()). -/
def utf8EncodeChar (c : Char) : List Nat :=
  let n := c.toNat
  if n < 128 then [n]
  else if n < 2048 then [192 ||| (n >>> 6), 128 ||| (n &&& 63)]
  else if n < 65536 then
    [224 ||| (n >>> 12), 128 ||| ((n >>> 6) &&& 63), 128 ||| (n &&& 63)]
  else
    [240 ||| (n >>> 18), 128 ||| ((n >>> 12) &&& 63),
     128 ||| ((n >>> 6) &&& 63), 128 ||| (n &&& 63)]

/-- UTF-8 encoding of a string (str.encode()). -/
def utf8Encode (s : String) : List Nat :=
  s.data.flatMap utf8EncodeChar

/-- Python str.endswith: the second string is a suffix of the first. -/
def strEndsWith (s suffix : String) : Bool :=
  charsStartWith suffix.data.reverse s.data.reverse

/-- The characters before the first occurrence of the separator, or the
whole list if the separator is absent (Python s.split(sep)[0]). -/
def charsBefore (sep : Char) : List Char → List Char
  | [] => []
  | c :: cs => if c == sep then [] else c :: charsBefore sep cs

/-- AuthManager._email_to_user_id: for emails ending in "@virginia.edu" the
part before the "@" (email.split("@")[0]); otherwise the first 12 characters
of the lowercase SHA-256 hex digest of the UTF-8 encoded email
(hashlib.sha256(email.encode()).hexdigest()[:12]). -/
def emailToUserId (email : String) : String :=
  if strEndsWith email "@virginia.edu" then
    String.mk (charsBefore '@' email.data)
  else
    String.mk ((sha256HexChars (utf8Encode email)).take 12)

/-- Python exceptions raised by the pipeline (ValueError, PermissionError,
RuntimeError, httpx.HTTPError, json.JSONDecodeError, TypeError,
AttributeError, KeyError, IndexError, bare Exception). -/
inductive PyErr where
  | valueError (m : String)
  | permissionError (m : String)
  | runtimeError (m : String)
  | httpError (m : String)
  | jsonDecodeError (m : String)
  | typeError (m : String)
  | attributeError (m : String)
  | keyError (m : String)
  | indexError (m : String)
  | exception (m : String)
deriving DecidableEq

/-- Python str(e) of a pipeline exception: its message (for KeyError the
stored message is already the repr of the missing key, as str(e) renders). -/
def PyErr.msg : PyErr → String
  | .valueError m | .permissionError m | .runtimeError m
  | .httpError m | .jsonDecodeError m | .typeError m
  | .attributeError m | .keyError m | .indexError m | .exception m => m

/-- The Python type name of a JSON value, as it appears in runtime error
messages. -/
def pyTypeName : J → String
  | .null => "NoneType"
  | .bool _ => "bool"
  | .num _ => "int"
  | .str _ => "str"
  | .arr _ => "list"
  | .obj _ => "dict"

/-- Python membership test `k in v` for a string key: key membership for a
dict, element membership for a list, substring for a str; an int, bool or
None receiver raises TypeError. -/
def pyContains (v : J) (k : String) : Except PyErr Bool :=
  match v with
  | .obj kvs => .ok (hasKey kvs k)
  | .arr xs => .ok (xs.any (fun x => x == .str k))
  | .str s => .ok (charsContain k.data s.data)
  | _ =>
    .error (.typeError ("argument of type '" ++ pyTypeName v ++
      "' is not iterable"))

/-- Python subscript `v[k]` with a string key: dict lookup (KeyError when
missing); a str or list receiver raises TypeError for a non-integer index;
other receivers are not subscriptable. -/
def pySubscript (v : J) (k : String) : Except PyErr J :=
  match v with
  | .obj kvs =>
    match lookupKey kvs k with
    | some x => .ok x
    | none => .error (.keyError ("'" ++ k ++ "'"))
  | .str _ => .error (.typeError "string indices must be integers")
  | .arr _ => .error (.typeError "list indices must be integers")
  | _ =>
    .error (.typeError ("'" ++ pyTypeName v ++ "' object is not subscriptable"))

/-- Python `v.get(k, dflt)`: dict lookup with default; a non-dict receiver
raises AttributeError. -/
def pyGet (v : J) (k : String) (dflt : J) : Except PyErr J :=
  match v with
  | .obj kvs => .ok (getKeyD kvs k dflt)
  | _ =>
    .error (.attributeError ("'" ++ pyTypeName v ++
      "' object has no attribute 'get'"))

/-- Python `len(v)`: defined for dict, list and str; other receivers raise
TypeError. -/
def pyLen (v : J) : Except PyErr Nat :=
  match v with
  | .obj kvs => .ok kvs.length
  | .arr xs => .ok xs.length
  | .str s => .ok s.data.length
  | _ =>
    .error (.typeError ("object of type '" ++ pyTypeName v ++
      "' has no len()"))

/-- Python `v[0]`: first element of a list, first character of a str (as a
one-character str); a dict raises KeyError 0; other receivers are not
subscriptable. -/
def pyIndex0 (v : J) : Except PyErr J :=
  match v with
  | .arr (x :: _) => .ok x
  | .arr [] => .error (.indexError "list index out of range")
  | .str s =>
    match s.data with
    | c :: _ => .ok (.str (String.mk [c]))
    | [] => .error (.indexError "string index out of range")
  | .obj _ => .error (.keyError "0")
  | _ =>
    .error (.typeError ("'" ++ pyTypeName v ++ "' object is not subscriptable"))

/-- Python iteration `for x in v`: the elements of a list, the characters
of a str (as one-character strs), the keys of a dict; other receivers raise
TypeError. -/
def pyIterItems (v : J) : Except PyErr (List J) :=
  match v with
  | .arr xs => .ok xs
  | .str s => .ok (s.data.map (fun c => J.str (String.mk [c])))
  | .obj kvs => .ok (kvs.map (fun p => J.str p.1))
  | _ =>
    .error (.typeError ("'" ++ pyTypeName v ++ "' object is not iterable"))

/-- config.py SkillExposure: the per-agent classification of skill names. -/
structure SkillExposure where
  exposed : List String := []
  hidden : List String := []
  internal : List String := []
deriving DecidableEq

/-- SkillExposure.is_user_callable: the skill is in `exposed`. -/
def SkillExposure.is_user_callable (se : SkillExposure) (skill_id : String) :
    Bool :=
  se.exposed.contains skill_id

/-- SkillExposure.is_hub_callable: the skill is in `exposed` or `internal`. -/
def SkillExposure.is_hub_callable (se : SkillExposure) (skill_id : String) :
    Bool :=
  se.exposed.contains skill_id || se.internal.contains skill_id

/-- SkillExposure.all_available: `exposed + internal`. -/
def SkillExposure.all_available (se : SkillExposure) : List String :=
  se.exposed ++ se.internal

/-- config.py HubAction: a user-facing action mapping to an agent skill. -/
structure HubAction where
  id : String
  label : String
  icon : String
  agent : String
  skill : String
  description : String := ""
  precondition : Option String := none
  confirm : Bool := false
  confirm_message : String := ""
  primary : Bool := false
  position : Int := 0
  group : Option String := none
deriving DecidableEq

/-- config.py AuthConfig. -/
structure AuthConfig where
  method : String := "magic_link"
  email_domain : Option String := none
  session_duration_hours : Nat := 24
  oauth_provider : Option String := none
  oauth_client_id : Option String := none
deriving DecidableEq

/-- AuthConfig.validate_email: no configured domain accepts everything,
otherwise the email must end with "@" plus the configured domain. -/
def AuthConfig.validate_email (c : AuthConfig) (email : String) : Bool :=
  match c.email_domain with
  | none => true
  | some d => strEndsWith email ("@" ++ d)

/-- config.py ConsentConfig. -/
structure ConsentConfig where
  required : Bool := true
  title : String := "Consent Required"
  text : String := ""
  data_usage : List String := []
  data_shared_with : List String := []
  revocable : Bool := true
  optional_participation : Bool := true
deriving DecidableEq

/-- config.py AgentConnection. -/
structure AgentConnection where
  name : String
  url : String
  skill_exposure : SkillExposure
  timeout_seconds : Nat := 30
  retry_attempts : Nat := 3
  healthy : Bool := false
  last_health_check : Option String := none
deriving DecidableEq

/-- Python str() of an Optional[str] as interpolated by an f-string. -/
def pyStrOfOptStr : Option String → String
  | none => "None"
  | some s => s

/-
router.py HubRouter. The httpx transport is an oracle from URL and posted
message to an outcome; every invocation of _send_to_agent is recorded as a
`netCall` event in the traces below.
-/

/-- Outcome of the HTTP POST inside HubRouter._send_to_agent: a transport
error (httpx.HTTPError, including raise_for_status), a body that fails JSON
decoding, or a parsed JSON body. The members of the A2A protocol exchange
JSON objects at the top level. -/
inductive NetResult where
  | httpError (m : String)
  | jsonError (m : String)
  | ok (body : J)

/-- The network oracle: what the transport yields for a POST of a given
JSON message to a given URL. -/
def NetOracle : Type := String → J → NetResult

/-- Observable side effects of one dispatch: lifecycle hook invocations,
precondition evaluations, and network sends. -/
inductive Event where
  | hookActionStart (action_id user_id : String)
  | precondCheck (ref : String)
  | netCall (url : String)
  | hookActionComplete (action_id user_id : String)
deriving DecidableEq

/-- HubRouter._build_a2a_message: the JSON-RPC 2.0 message/send envelope.
The data part carries the target skill id and the parameter bag
`{"user_id": user_id, **params}`. -/
def build_a2a_message (message_id skill_id user_id : String)
    (params : List (String × J)) : J :=
  J.obj [
    ("jsonrpc", .str "2.0"),
    ("id", .str message_id),
    ("method", .str "message/send"),
    ("params", .obj [
      ("message", .obj [
        ("role", .str "user"),
        ("parts", .arr [
          .obj [
            ("kind", .str "data"),
            ("data", .obj [
              ("skill", .str skill_id),
              ("parameters",
                .obj (dictUpdate [("user_id", .str user_id)] params))])]]),
        ("messageId", .str message_id),
        ("kind", .str "message")])])]

/-- The loop body of HubRouter._extract_result: iterate the parts and
return the "data" of the first part whose "kind" is "data" (each
part.get(...) raises AttributeError on a non-dict part). -/
def findDataPartE : List J → Except PyErr (Option J)
  | [] => .ok none
  | p :: rest =>
    match pyGet p "kind" .null with
    | .error e => .error e
    | .ok kind =>
      if kind == .str "data" then
        match pyGet p "data" (.obj []) with
        | .error e => .error e
        | .ok d => .ok (some d)
      else findDataPartE rest

/-- HubRouter._extract_result: if "artifacts" is in the result, and the
artifacts value is truthy with positive length, take the first artifact's
"parts" (default empty list) and return the data of its first data-kind
part; otherwise return the result as-is. Each Python operation ("in",
subscript, len, .get, iteration) raises on a receiver of the wrong type,
and the raise propagates out of _extract_result. -/
def extract_result (result : J) : Except PyErr J :=
  match pyContains result "artifacts" with
  | .error e => .error e
  | .ok false => .ok result
  | .ok true =>
    match pySubscript result "artifacts" with
    | .error e => .error e
    | .ok artifacts =>
      if artifacts.truthy then
        match pyLen artifacts with
        | .error e => .error e
        | .ok n =>
          if n > 0 then
            match pyIndex0 artifacts with
            | .error e => .error e
            | .ok a0 =>
              match pyGet a0 "parts" (.arr []) with
              | .error e => .error e
              | .ok parts =>
                match pyIterItems parts with
                | .error e => .error e
                | .ok items =>
                  match findDataPartE items with
                  | .error e => .error e
                  | .ok (some d) => .ok d
                  | .ok none => .ok result
          else .ok result
      else .ok result

/-- HubRouter._send_to_agent: POST the message, propagate transport and
JSON-decoding errors; on a parsed body, a "result" field is unwrapped via
_extract_result (whose exceptions propagate), otherwise an "error" field
raises `Exception(f"Agent error: {data['error']}")`, otherwise the body is
returned verbatim; the membership tests and subscripts themselves raise on
a body of the wrong shape. -/
def send_to_agent (net : NetOracle) (agent_url : String) (message : J) :
    Except PyErr J :=
  match net agent_url message with
  | .httpError m => .error (.httpError m)
  | .jsonError m => .error (.jsonDecodeError m)
  | .ok data =>
    match pyContains data "result" with
    | .error e => .error e
    | .ok true =>
      match pySubscript data "result" with
      | .error e => .error e
      | .ok r => extract_result r
    | .ok false =>
      match pyContains data "error" with
      | .error e => .error e
      | .ok true =>
        match pySubscript data "error" with
        | .error e => .error e
        | .ok v => .error (.exception ("Agent error: " ++ pyStr v))
      | .ok false => .ok data

/-- HubRouter.route_action: resolve the agent, require is_hub_callable,
build the envelope and send it; exceptions from the send are logged and
re-raised unchanged. -/
def route_action (agents : List (String × AgentConnection)) (net : NetOracle)
    (message_id : String) (action : HubAction) (user_id : String)
    (params : List (String × J)) : Except PyErr J × List Event :=
  match lookupKey agents action.agent with
  | none => (.error (.valueError ("Agent not found: " ++ action.agent)), [])
  | some agent =>
    if !agent.skill_exposure.is_hub_callable action.skill then
      (.error (.permissionError ("Skill " ++ action.skill ++
        " is not available for agent " ++ action.agent)), [])
    else
      let message := build_a2a_message message_id action.skill user_id params
      (send_to_agent net agent.url message, [.netCall agent.url])

/-- Split a character list at the first occurrence of the separator
(Python s.split(sep, 1)), when the separator occurs. -/
def charsSplitFirst (sep : Char) : List Char → Option (List Char × List Char)
  | [] => none
  | c :: cs =>
    if c == sep then some ([], cs)
    else match charsSplitFirst sep cs with
      | some (a, b) => some (c :: a, b)
      | none => none

/-- The reference parser at the top of HubRouter.check_precondition: split
"agent.skill" at the first "." (s.split(".", 1)); a bare skill name defaults
the agent to "le_veilleur". -/
def precond_ref_parts (precondition_skill : String) : String × String :=
  match charsSplitFirst '.' precondition_skill.data with
  | some (a, b) => (String.mk a, String.mk b)
  | none => ("le_veilleur", precondition_skill)

/-- The response-interpretation block inside HubRouter.check_precondition's
try: a response carrying "has_pending" is rendered as the conventional
satisfied/message/action_required object, any other response is passed
through; the membership test and the .get calls raise on receivers of the
wrong type, and those exceptions are caught by the surrounding except. -/
def interpret_precondition (result : J) : Except PyErr J :=
  match pyContains result "has_pending" with
  | .error e => .error e
  | .ok false => .ok result
  | .ok true =>
    match pyGet result "has_pending" (.bool false) with
    | .error e => .error e
    | .ok sat =>
      match pyGet result "message" (.str "No pending worksheet found") with
      | .error e => .error e
      | .ok msg =>
        match pyGet result "has_pending" .null with
        | .error e => .error e
        | .ok hp =>
          .ok (J.obj [
            ("satisfied", sat),
            ("message", msg),
            ("action_required",
              if !hp.truthy then .str "generate_worksheet" else .null)])

/-- HubRouter.check_precondition: parse "agent.skill" (a bare name defaults
the agent to "le_veilleur"); an unregistered agent fails open with
satisfied true and no send; otherwise merge the user under "student_id",
send, and interpret the response inside the try block; any exception from
the send or the interpretation fails closed with satisfied false and
str(e) as the message. -/
def check_precondition (agents : List (String × AgentConnection))
    (net : NetOracle) (message_id : String)
    (precondition_skill user_id : String) (params : List (String × J)) :
    J × List Event :=
  let agent_name := (precond_ref_parts precondition_skill).1
  let skill_name := (precond_ref_parts precondition_skill).2
  match lookupKey agents agent_name with
  | none => (J.obj [("satisfied", .bool true)], [])
  | some agent =>
    let check_params := dictUpdate [("student_id", J.str user_id)] params
    let message := build_a2a_message message_id skill_name user_id check_params
    match (match send_to_agent net agent.url message with
           | .error e => Except.error e
           | .ok result => interpret_precondition result) with
    | .error e =>
      (J.obj [("satisfied", .bool false), ("message", .str e.msg)],
       [.netCall agent.url])
    | .ok v => (v, [.netCall agent.url])

/-
auth.py AuthManager. The in-memory stores are explicit state; datetime.now()
is a `now` parameter and secrets.token_urlsafe(32) an explicit token
parameter. timedelta(minutes=15) is 900 seconds and
timedelta(hours=session_duration_hours) is session_duration_hours * 3600.
-/

/-- A pending magic link: target email and absolute expiry. -/
structure PendingLink where
  email : String
  expires : Nat
deriving DecidableEq

/-- A session: user id and email fixed at issuance, absolute expiry,
creation time. -/
structure Session where
  user_id : String
  email : String
  expires : Nat
  created : Nat
deriving DecidableEq

/-- The AuthManager in-memory stores: token -> pending link and
session token -> session. -/
structure AuthState where
  pending_links : List (String × PendingLink) := []
  sessions : List (String × Session) := []
deriving DecidableEq

/-- AuthManager.send_magic_link: reject an email failing the domain check;
otherwise store a pending link expiring in 15 minutes under the fresh token
and return the token (dev mode). -/
def send_magic_link (config : AuthConfig) (now : Nat) (token : String)
    (st : AuthState) (email : String) : J × AuthState :=
  if !config.validate_email email then
    (J.obj [("success", .bool false),
            ("error", .str ("Email must be from " ++
              pyStrOfOptStr config.email_domain))], st)
  else
    let expires := now + 900
    let st1 := { st with
      pending_links := setKey st.pending_links token ⟨email, expires⟩ }
    (J.obj [("success", .bool true),
            ("message", .str ("Magic link sent to " ++ email)),
            ("dev_token", .str token)], st1)

/-- AuthManager.verify_magic_link: an unknown token fails invalid-or-expired;
a known token past expiry is deleted and fails expired; otherwise derive the
user id from the stored email, store a session under the fresh session
token, delete the consumed pending link, and return session token, user id
and email. -/
def verify_magic_link (config : AuthConfig) (now : Nat)
    (session_token : String) (st : AuthState) (token : String) :
    J × AuthState :=
  match lookupKey st.pending_links token with
  | none =>
    (J.obj [("success", .bool false), ("error", .str "Invalid or expired link")],
     st)
  | some pending =>
    if now > pending.expires then
      (J.obj [("success", .bool false), ("error", .str "Link has expired")],
       { st with pending_links := delKey st.pending_links token })
    else
      let email := pending.email
      let user_id := emailToUserId email
      let session_expires := now + config.session_duration_hours * 3600
      let st1 := { st with
        sessions := setKey st.sessions session_token
          ⟨user_id, email, session_expires, now⟩,
        pending_links := delKey st.pending_links token }
      (J.obj [("success", .bool true),
              ("session_token", .str session_token),
              ("user_id", .str user_id),
              ("email", .str email),
              ("expires", .str (toString session_expires))], st1)

/-- AuthManager.validate_session: none for an unknown token; an expired
session is deleted on this lookup and yields none; otherwise the stored
user_id, email and expiry. -/
def validate_session (now : Nat) (st : AuthState) (session_token : String) :
    Option J × AuthState :=
  match lookupKey st.sessions session_token with
  | none => (none, st)
  | some session =>
    if now > session.expires then
      (none, { st with sessions := delKey st.sessions session_token })
    else
      (some (J.obj [("user_id", .str session.user_id),
                    ("email", .str session.email),
                    ("expires", .str (toString session.expires))]), st)

/-- AuthManager.invalidate_session: delete if present; idempotent. -/
def invalidate_session (st : AuthState) (session_token : String) :
    Bool × AuthState :=
  if hasKey st.sessions session_token then
    (true, { st with sessions := delKey st.sessions session_token })
  else (false, st)

/-
consent.py ConsentManager.
-/

/-- A consent record as stored by ConsentManager.record_consent. -/
structure ConsentRecord where
  user_id : String
  timestamp : Nat
  revoked : Bool
  revoked_at : Option Nat
  consent_version : String
deriving DecidableEq

/-- The ConsentManager in-memory store: user_id -> consent record. -/
structure ConsentState where
  consents : List (String × ConsentRecord) := []
deriving DecidableEq

/-- ConsentManager.has_consented: unconditionally true when the policy does
not require consent; otherwise a record must exist and not be revoked. -/
def has_consented (config : ConsentConfig) (st : ConsentState)
    (user_id : String) : Bool :=
  if !config.required then true
  else
    match lookupKey st.consents user_id with
    | none => false
    | some consent => if consent.revoked then false else true

/-- ConsentManager.record_consent: upsert a fresh non-revoked record with a
new timestamp and consent version "1.0"; always succeeds. -/
def record_consent (now : Nat) (st : ConsentState) (user_id : String) :
    J × ConsentState :=
  let st1 : ConsentState :=
    { consents := setKey st.consents user_id ⟨user_id, now, false, none, "1.0"⟩ }
  (J.obj [("success", .bool true),
          ("user_id", .str user_id),
          ("timestamp", .str (toString now)),
          ("message", .str "Consent recorded successfully")], st1)

/-- ConsentManager.revoke_consent: fails when the policy disallows
revocation; fails with no-record when the user never consented; otherwise
flips revoked and stamps revoked_at. -/
def revoke_consent (config : ConsentConfig) (now : Nat) (st : ConsentState)
    (user_id : String) : J × ConsentState :=
  if !config.revocable then
    (J.obj [("success", .bool false),
            ("error", .str "Consent cannot be revoked for this hub")], st)
  else
    match lookupKey st.consents user_id with
    | none =>
      (J.obj [("success", .bool false),
              ("error", .str "No consent record found")], st)
    | some consent =>
      let st1 : ConsentState :=
        { consents := setKey st.consents user_id
            { consent with revoked := true, revoked_at := some now } }
      (J.obj [("success", .bool true),
              ("user_id", .str user_id),
              ("message", .str "Consent has been revoked")], st1)

/-
base_hub.py BaseHub.handle_action. The subclass lifecycle hooks are
parameters: a hook either returns normally (its return value is ignored by
the dispatcher) or raises an exception; `some e` models a raising hook.
uuid.uuid4() values for the outbound messages come from the generator `gen`
(index 0 for a precondition check send, index 1 for the routed send).
-/

/-- The overridable lifecycle hooks of a BaseHub subclass, reduced to their
observable effect on the dispatcher: raise or return. -/
structure Hooks where
  on_action_start : String → String → List (String × J) → Option PyErr
  on_action_complete : String → String → J → Option PyErr

/-- The initialized-Hub state that handle_action reads: the initialized
flag, the registered agent map, and the loaded action list. -/
structure Hub where
  initialized : Bool
  agents : List (String × AgentConnection)
  actions : List HubAction

/-- BaseHub._get_action: first action with a matching id. -/
def get_action (actions : List HubAction) (action_id : String) :
    Option HubAction :=
  actions.find? (fun a => a.id == action_id)

/-- BaseHub.handle_action: require initialization, resolve the action and
its agent, require is_user_callable, fire on_action_start, evaluate a
declared (truthy) precondition and short-circuit when unsatisfied,
otherwise route the action and fire on_action_complete with the result. A
raising hook propagates its exception (the source wraps no hook call in a
try block), and the .get calls on the precondition result raise
AttributeError on a non-dict result, which also propagates. -/
def handle_action (hub : Hub) (hooks : Hooks) (net : NetOracle)
    (gen : Nat → String) (action_id user_id : String)
    (params : List (String × J)) : Except PyErr J × List Event :=
  if !hub.initialized then (.error (.runtimeError "Hub not initialized"), [])
  else
    match get_action hub.actions action_id with
    | none => (.error (.valueError ("Unknown action: " ++ action_id)), [])
    | some action =>
      match lookupKey hub.agents action.agent with
      | none => (.error (.valueError ("Unknown agent: " ++ action.agent)), [])
      | some agent =>
        if !agent.skill_exposure.is_user_callable action.skill then
          (.error (.permissionError ("Skill " ++ action.skill ++
            " is not available in this hub")), [])
        else
          match hooks.on_action_start action_id user_id params with
          | some e => (.error e, [.hookActionStart action_id user_id])
          | none =>
            let routeThen := fun (evs : List Event) =>
              match route_action hub.agents net (gen 1) action user_id params with
              | (.error e, revs) => (Except.error e, evs ++ revs)
              | (.ok result, revs) =>
                match hooks.on_action_complete action_id user_id result with
                | some e =>
                  (Except.error e,
                   evs ++ revs ++ [.hookActionComplete action_id user_id])
                | none =>
                  (Except.ok result,
                   evs ++ revs ++ [.hookActionComplete action_id user_id])
            let ev0 := [Event.hookActionStart action_id user_id]
            match action.precondition with
            | some ref =>
              if ref.data.isEmpty then routeThen ev0
              else
                let pres_pevs :=
                  check_precondition hub.agents net (gen 0) ref user_id params
                let pres := pres_pevs.1
                let evs := ev0 ++ [Event.precondCheck ref] ++ pres_pevs.2
                match pyGet pres "satisfied" (.bool false) with
                | .error e2 => (.error e2, evs)
                | .ok sat =>
                  if !sat.truthy then
                    match pyGet pres "message" (.str "Precondition not met") with
                    | .error e2 => (.error e2, evs)
                    | .ok msg =>
                      match pyGet pres "action_required" .null with
                      | .error e2 => (.error e2, evs)
                      | .ok ar =>
                        (.ok (J.obj [
                          ("status", .str "precondition_failed"),
                          ("message", msg),
                          ("action_required", ar)]), evs)
                  else routeThen evs
            | none => routeThen ev0

/-
Projections over the built A2A envelope, used to state properties of
_build_a2a_message: the data part of the single message part, its skill
field, and its parameter bag.
-/

/-- The "data" object of the first part of the envelope's message. -/
def message_data_part (m : J) : J :=
  match ((m.getD "params" .null).getD "message" .null).getD "parts" (.arr []) with
  | .arr (p0 :: _) => p0.getD "data" .null
  | _ => .null

/-- The skill named by the envelope's data part. -/
def message_skill (m : J) : J :=
  (message_data_part m).getD "skill" .null

/-- The parameter bag carried by the envelope's data part. -/
def message_param_bag (m : J) : List (String × J) :=
  match (message_data_part m).getD "parameters" .null with
  | .obj bag => bag
  | _ => []

/-
Concrete fixtures for witnesses and counterexamples: a small initialized
Hub with one agent exposing one skill and hiding another, stub networks,
and stub hook sets.
-/

/-- A stub agent connection exposing "grade" and hiding "secret_grade". -/
def tutorAgent : AgentConnection :=
  { name := "tutor", url := "http://localhost:8020",
    skill_exposure := { exposed := ["grade"], hidden := ["secret_grade"] } }

/-- An initialized Hub with the stub agent, an action "a1" on the exposed
skill and an action "a2" on the hidden skill. -/
def testHub : Hub :=
  { initialized := true,
    agents := [("tutor", tutorAgent)],
    actions := [
      { id := "a1", label := "Grade", icon := "g", agent := "tutor",
        skill := "grade" },
      { id := "a2", label := "Secret", icon := "s", agent := "tutor",
        skill := "secret_grade" }] }

/-- A stub network on which every send yields `{"result": {"result": "ok"}}`. -/
def netOk : NetOracle :=
  fun _ _ => .ok (J.obj [("result", J.obj [("result", .str "ok")])])

/-- A stub network on which every send fails at the transport layer. -/
def netDown : NetOracle :=
  fun _ _ => .httpError "connection refused"

/-- A stub network whose parsed body carries both a "result" and an "error"
field. -/
def netBoth : NetOracle :=
  fun _ _ =>
    .ok (J.obj [("result", J.obj [("x", .num 1)]), ("error", .str "boom")])

/-- A stub network whose parsed body carries only an "error" field. -/
def netErrOnly : NetOracle :=
  fun _ _ => .ok (J.obj [("error", .str "boom")])

/-- A stub network whose result carries an artifacts collection with one
data-bearing part. -/
def netArtifacts : NetOracle :=
  fun _ _ =>
    .ok (J.obj [("result", J.obj [("artifacts", .arr [
      J.obj [("parts", .arr [
        J.obj [("kind", .str "text"), ("text", .str "hello")],
        J.obj [("kind", .str "data"),
               ("data", J.obj [("score", .num 97)])]])]])])])

/-- Hooks that return normally. -/
def hooksOk : Hooks :=
  { on_action_start := fun _ _ _ => none,
    on_action_complete := fun _ _ _ => none }

/-- Hooks whose on_action_start raises. -/
def hooksStartRaises : Hooks :=
  { on_action_start := fun _ _ _ => some (.exception "hook boom"),
    on_action_complete := fun _ _ _ => none }

/-- A fixed message-id generator for concrete runs. -/
def genFixed : Nat → String := fun n => "msg-" ++ toString n


/-- Hooks whose on_action_complete raises. -/
def hooksCompleteRaises : Hooks :=
  { on_action_start := fun _ _ _ => none,
    on_action_complete := fun _ _ _ => some (.exception "late boom") }

/-- A concrete auth state holding one pending link for bob. -/
def authStPend : AuthState :=
  { pending_links := [("tok1", ⟨"bob@virginia.edu", 900⟩)], sessions := [] }

/-- A concrete auth state holding one session for bob expiring at 100. -/
def authStSess : AuthState :=
  { pending_links := [], sessions := [("t1", ⟨"bob", "bob@virginia.edu", 100, 0⟩)] }

/-- A stub network reporting pending work for every precondition check. -/
def netPending : NetOracle :=
  fun _ _ => .ok (J.obj [("result",
    J.obj [("has_pending", .bool true), ("message", .str "ready")])])

/-- An initialized Hub whose single action declares a precondition. -/
def testHubPre : Hub :=
  { initialized := true,
    agents := [("tutor", tutorAgent)],
    actions := [
      { id := "a3", label := "Review", icon := "r", agent := "tutor",
        skill := "grade", precondition := some "tutor.check_pending" }] }

/-
Association-list lemmas about the dict model (lookup after assignment,
deletion and update), shared by the claim proofs below.
-/

section AssocLemmas

variable {α : Type}

/-- Lookup on a cons cell checks the head key first. -/
theorem lookupKey_cons (p : String × α) (d : List (String × α)) (k : String) :
    lookupKey (p :: d) k = if p.1 == k then some p.2 else lookupKey d k := by
  cases h : p.1 == k <;> simp [lookupKey, List.find?, h]

/-- Key membership on a cons cell. -/
theorem hasKey_cons (p : String × α) (d : List (String × α)) (k : String) :
    hasKey (p :: d) k = (p.1 == k || hasKey d k) := by
  simp [hasKey]

/-- Key membership as list membership of the key. -/
theorem hasKey_iff (d : List (String × α)) (k : String) :
    hasKey d k = true ↔ k ∈ d.map Prod.fst := by
  simp only [hasKey, List.any_eq_true, beq_iff_eq, List.mem_map]

/-- Dict assignment stores the assigned value at the assigned key. -/
theorem lookupKey_setKey_self (d : List (String × α)) (k : String) (v : α) :
    lookupKey (setKey d k v) k = some v := by
  induction d with
  | nil => simp [setKey, lookupKey, List.find?]
  | cons p d ih =>
    cases hp : p.1 == k with
    | true => simp [setKey, hp, lookupKey_cons]
    | false => simp [setKey, hp, lookupKey_cons, ih]

/-- Dict assignment leaves lookups of other keys unchanged. -/
theorem lookupKey_setKey_other (d : List (String × α)) (k : String) (v : α)
    (k2 : String) (hne : k2 ≠ k) :
    lookupKey (setKey d k v) k2 = lookupKey d k2 := by
  induction d with
  | nil =>
    have hk : (k == k2) = false := by
      simp only [beq_eq_false_iff_ne, ne_eq]
      exact fun hh => hne hh.symm
    simp [setKey, lookupKey_cons, hk, lookupKey]
  | cons p d ih =>
    cases hp : p.1 == k with
    | true =>
      have hpk : p.1 = k := by simpa using hp
      have hk : (k == k2) = false := by
        simp only [beq_eq_false_iff_ne, ne_eq]
        exact fun hh => hne hh.symm
      have hpk2 : (p.1 == k2) = false := by rw [hpk]; exact hk
      simp [setKey, hp, lookupKey_cons, hk, hpk2]
    | false =>
      cases hp2 : p.1 == k2 with
      | true => simp [setKey, hp, lookupKey_cons, hp2]
      | false => simp [setKey, hp, lookupKey_cons, hp2, ih]

/-- Deleting a key removes it. -/
theorem lookupKey_delKey_self (d : List (String × α)) (k : String) :
    lookupKey (delKey d k) k = none := by
  induction d with
  | nil => rfl
  | cons p d ih =>
    cases hp : p.1 == k with
    | true => simp [delKey, hp, ih]
    | false => simp [delKey, hp, lookupKey_cons, ih]

/-- Deleting a key leaves lookups of other keys unchanged. -/
theorem lookupKey_delKey_other (d : List (String × α)) (k k2 : String)
    (hne : k2 ≠ k) :
    lookupKey (delKey d k) k2 = lookupKey d k2 := by
  induction d with
  | nil => rfl
  | cons p d ih =>
    cases hp : p.1 == k with
    | true =>
      have hpk : p.1 = k := by simpa using hp
      have hpk2 : (p.1 == k2) = false := by
        rw [hpk]
        simp only [beq_eq_false_iff_ne, ne_eq]
        exact fun hh => hne hh.symm
      simp [delKey, hp, lookupKey_cons, hpk2, ih]
    | false =>
      cases hp2 : p.1 == k2 with
      | true => simp [delKey, hp, lookupKey_cons, hp2]
      | false => simp [delKey, hp, lookupKey_cons, hp2, ih]

/-- Dict assignment adds exactly the assigned key to the key set. -/
theorem hasKey_setKey (d : List (String × α)) (k : String) (v : α)
    (k2 : String) :
    hasKey (setKey d k v) k2 = (hasKey d k2 || k == k2) := by
  induction d with
  | nil => simp [setKey, hasKey]
  | cons p d ih =>
    cases hp : p.1 == k with
    | true =>
      have hpk : p.1 = k := by simpa using hp
      rw [setKey]
      simp only [hp]
      rw [if_pos trivial, hasKey_cons, hasKey_cons, hpk]
      cases k == k2 <;> cases hasKey d k2 <;> rfl
    | false =>
      rw [setKey]
      simp only [hp]
      rw [if_neg (fun hh => Bool.false_ne_true hh), hasKey_cons, hasKey_cons, ih]
      cases p.1 == k2 <;> cases hasKey d k2 <;> cases k == k2 <;> rfl

/-- Dict update at a key absent from the overriding dict reads the base. -/
theorem lookupKey_dictUpdate_not_has (u : List (String × α)) (k : String) :
    ∀ d, hasKey u k = false → lookupKey (dictUpdate d u) k = lookupKey d k := by
  induction u with
  | nil => intro d _; rfl
  | cons p u ih =>
    intro d h
    rw [hasKey_cons] at h
    cases hp : p.1 == k with
    | true => rw [hp] at h; simp at h
    | false =>
      rw [hp, Bool.false_or] at h
      show lookupKey (dictUpdate (setKey d p.1 p.2) u) k = lookupKey d k
      rw [ih _ h]
      exact lookupKey_setKey_other d p.1 p.2 k
        (fun hh => by rw [hh] at hp; simp at hp)

/-- Dict update stores each entry of a duplicate-free update at its key. -/
theorem lookupKey_dictUpdate_mem (u : List (String × α)) (k : String) (v : α) :
    ∀ d, (u.map Prod.fst).Nodup → (k, v) ∈ u →
      lookupKey (dictUpdate d u) k = some v := by
  induction u with
  | nil => intro d _ hm; simp at hm
  | cons p u ih =>
    intro d hnd hm
    rw [List.map_cons, List.nodup_cons] at hnd
    rcases List.mem_cons.mp hm with he | hmem
    · have hk : p.1 = k := by rw [← he]
      have hv : p.2 = v := by rw [← he]
      have hnot : hasKey u k = false := by
        cases hq : hasKey u k with
        | false => rfl
        | true => exact absurd (hk ▸ (hasKey_iff u k).mp hq) hnd.1
      show lookupKey (dictUpdate (setKey d p.1 p.2) u) k = some v
      rw [lookupKey_dictUpdate_not_has u k _ hnot, hk, hv]
      exact lookupKey_setKey_self d k v
    · exact ih _ hnd.2 hmem

/-- Dict update unions the key sets. -/
theorem hasKey_dictUpdate (u : List (String × α)) (k : String) :
    ∀ d, hasKey (dictUpdate d u) k = (hasKey d k || hasKey u k) := by
  induction u with
  | nil => intro d; simp [dictUpdate, hasKey]
  | cons p u ih =>
    intro d
    show hasKey (dictUpdate (setKey d p.1 p.2) u) k = _
    rw [ih, hasKey_setKey, hasKey_cons]
    cases hasKey d k <;> cases p.1 == k <;> cases hasKey u k <;> rfl

end AssocLemmas

/-
Further helper lemmas connecting lookup and key membership, and the length
of a SHA-256 hex digest.
-/

/-- A successful lookup witnesses key membership. -/
theorem hasKey_of_lookup {α : Type} {d : List (String × α)} {k : String}
    {v : α} (h : lookupKey d k = some v) : hasKey d k = true := by
  induction d with
  | nil => simp [lookupKey] at h
  | cons p d ih =>
    rw [lookupKey_cons] at h
    rw [hasKey_cons]
    cases hp : p.1 == k with
    | true => rfl
    | false =>
      rw [hp] at h
      rw [if_neg (fun hh => Bool.false_ne_true hh)] at h
      rw [Bool.false_or]
      exact ih h

/-- An absent key looks up to none. -/
theorem lookupKey_eq_none {α : Type} {d : List (String × α)} {k : String}
    (h : hasKey d k = false) : lookupKey d k = none := by
  induction d with
  | nil => rfl
  | cons p d ih =>
    rw [hasKey_cons] at h
    rw [lookupKey_cons]
    cases hp : p.1 == k with
    | true => rw [hp] at h; simp at h
    | false =>
      rw [hp] at h
      rw [if_neg (fun hh => Bool.false_ne_true hh)]
      rw [Bool.false_or] at h
      exact ih h

/-- A SHA-256 hex digest has 64 characters. -/
theorem sha256HexChars_length (msg : List Nat) :
    (sha256HexChars msg).length = 64 := by
  simp [sha256HexChars, hex8Chars]

/-
Claim theorems.
-/

/-- C4 (counterexample): the claim that the outbound envelope's parameter
bag always includes the caller's user id under the key "user_id" fails: a
caller-supplied "user_id" parameter overrides it. For caller "alice" and
params containing "user_id" -> "mallory", the bag binds "user_id" to
"mallory", not "alice". -/
theorem C4_counterexample :
    message_param_bag (build_a2a_message "m1" "solve" "alice"
        [("user_id", J.str "mallory")])
      = [("user_id", J.str "mallory")]
    ∧ lookupKey (message_param_bag (build_a2a_message "m1" "solve" "alice"
        [("user_id", J.str "mallory")])) "user_id" ≠ some (J.str "alice") := by
  exact ⟨rfl, by decide⟩

/-- C4 (amended): the outbound envelope names the target skill, and its
data part's parameter bag is `{"user_id": user_id, **params}`: it always
contains the key "user_id"; that key holds the caller's user id unless the
caller-supplied parameters themselves contain "user_id", which then takes
precedence; and every caller-supplied parameter appears in the bag at its
own value. -/
theorem C4_envelope_param_bag (mid sk uid : String) (ps : List (String × J)) :
    message_skill (build_a2a_message mid sk uid ps) = J.str sk
    ∧ message_param_bag (build_a2a_message mid sk uid ps)
        = dictUpdate [("user_id", J.str uid)] ps
    ∧ hasKey (message_param_bag (build_a2a_message mid sk uid ps)) "user_id"
        = true
    ∧ (hasKey ps "user_id" = false →
        lookupKey (message_param_bag (build_a2a_message mid sk uid ps))
          "user_id" = some (J.str uid))
    ∧ ((ps.map Prod.fst).Nodup → ∀ k v, (k, v) ∈ ps →
        lookupKey (message_param_bag (build_a2a_message mid sk uid ps)) k
          = some v) := by
  refine ⟨rfl, rfl, ?_, ?_, ?_⟩
  · show hasKey (dictUpdate [("user_id", J.str uid)] ps) "user_id" = true
    rw [hasKey_dictUpdate]
    simp [hasKey]
  · intro h
    show lookupKey (dictUpdate [("user_id", J.str uid)] ps) "user_id"
      = some (J.str uid)
    rw [lookupKey_dictUpdate_not_has ps "user_id" _ h]
    simp [lookupKey, List.find?]
  · intro hnd k v hm
    show lookupKey (dictUpdate [("user_id", J.str uid)] ps) k = some v
    exact lookupKey_dictUpdate_mem ps k v _ hnd hm

/-- C4 (witness): for caller "alice" with params not containing "user_id",
the bag binds "user_id" to "alice" and keeps the caller's parameter. -/
theorem C4_witness :
    message_skill (build_a2a_message "m1" "grade" "alice" [("level", J.num 2)])
      = J.str "grade"
    ∧ lookupKey (message_param_bag (build_a2a_message "m1" "grade" "alice"
        [("level", J.num 2)])) "user_id" = some (J.str "alice")
    ∧ lookupKey (message_param_bag (build_a2a_message "m1" "grade" "alice"
        [("level", J.num 2)])) "level" = some (J.num 2) := by
  have h := C4_envelope_param_bag "m1" "grade" "alice" [("level", J.num 2)]
  exact ⟨h.1, h.2.2.2.1 (by decide),
    h.2.2.2.2 (by decide) "level" (J.num 2) (by decide)⟩

/-- C9 (counterexample): the derivation does not use the Hub's configured
email domain: against a Hub configured with email_domain "other.edu" the
matching email "bob@other.edu" maps to a hash prefix, not to its local part
"bob". -/
theorem C9_counterexample :
    AuthConfig.validate_email { email_domain := some "other.edu" }
      "bob@other.edu" = true
    ∧ emailToUserId "bob@other.edu" = "bc39850ea4c1"
    ∧ emailToUserId "bob@other.edu" ≠ "bob" := by
  exact ⟨by decide, by decide, by decide⟩

/-- C9 (amended): the email-to-user-id derivation is a pure function of the
email alone, with the fixed domain "@virginia.edu" (independent of the
configured email domain): a matching email maps to its local part; any
other email maps to the first 12 characters of the SHA-256 hex digest of
the email, a string of length 12; identical emails give identical ids. -/
theorem C9_email_derivation (email : String) :
    (strEndsWith email "@virginia.edu" = true →
      emailToUserId email = String.mk (charsBefore '@' email.data))
    ∧ (strEndsWith email "@virginia.edu" = false →
        emailToUserId email
          = String.mk ((sha256HexChars (utf8Encode email)).take 12)
        ∧ (emailToUserId email).length = 12)
    ∧ (∀ e2 : String, email = e2 → emailToUserId email = emailToUserId e2) := by
  refine ⟨?_, ?_, ?_⟩
  · intro h
    simp [emailToUserId, h]
  · intro h
    have he : emailToUserId email
        = String.mk ((sha256HexChars (utf8Encode email)).take 12) := by
      simp [emailToUserId, h]
    refine ⟨he, ?_⟩
    rw [he]
    show ((sha256HexChars (utf8Encode email)).take 12).length = 12
    rw [List.length_take, sha256HexChars_length]
    decide
  · intro e2 he
    rw [he]

/-- C9 (witness): "bob@virginia.edu" maps to "bob"; "bob@other.edu" maps to
a 12-character id. -/
theorem C9_witness :
    emailToUserId "bob@virginia.edu" = "bob"
    ∧ (emailToUserId "bob@other.edu").length = 12 := by
  have h1 := (C9_email_derivation "bob@virginia.edu").1 (by decide)
  have h2 := (C9_email_derivation "bob@other.edu").2.1 (by decide)
  exact ⟨h1.trans (by decide), h2.2⟩

/-- C7: revoking consent for a user with no record fails with the no-record
error and returns the state unchanged, so (under a consent-requiring
policy) has_consented is false before and after; and when the policy
disallows revocation, revocation fails with the not-revocable error
instead. -/
theorem C7_revoke_consent (config : ConsentConfig) (now : Nat)
    (st : ConsentState) (uid : String) :
    (config.revocable = true → lookupKey st.consents uid = none →
      revoke_consent config now st uid
        = (J.obj [("success", .bool false),
                  ("error", .str "No consent record found")], st)
      ∧ (config.required = true →
          has_consented config st uid = false
          ∧ has_consented config (revoke_consent config now st uid).2 uid
              = false))
    ∧ (config.revocable = false →
        revoke_consent config now st uid
          = (J.obj [("success", .bool false),
                    ("error", .str "Consent cannot be revoked for this hub")],
             st)) := by
  constructor
  · intro hrev hnone
    have hmain : revoke_consent config now st uid
        = (J.obj [("success", .bool false),
                  ("error", .str "No consent record found")], st) := by
      simp [revoke_consent, hrev, hnone]
    refine ⟨hmain, ?_⟩
    intro hreq
    have hc : has_consented config st uid = false := by
      simp [has_consented, hreq, hnone]
    exact ⟨hc, by rw [hmain]; exact hc⟩
  · intro hrev
    simp [revoke_consent, hrev]

/-- C7 (witness): with the default policy and an empty store, revoking for
"u1" fails with the no-record error, has_consented is false, and with a
non-revocable policy revoking fails with the not-revocable error. -/
theorem C7_witness :
    revoke_consent {} 5 {} "u1"
      = (J.obj [("success", .bool false),
                ("error", .str "No consent record found")], {})
    ∧ has_consented {} {} "u1" = false
    ∧ revoke_consent { revocable := false } 5 {} "u1"
      = (J.obj [("success", .bool false),
                ("error", .str "Consent cannot be revoked for this hub")],
         {}) := by
  have h1 := (C7_revoke_consent {} 5 {} "u1").1 rfl rfl
  have h2 := (C7_revoke_consent { revocable := false } 5 {} "u1").2 rfl
  exact ⟨h1.1, (h1.2 rfl).1, h2⟩

/-- C6: validating an unknown token yields none; validating a session past
its expiry yields none and removes the session from the store in the same
lookup; validating a live session returns the user info fixed at issuance
(stored user_id, email, expiry) and leaves the store unchanged. -/
theorem C6_validate_session (now : Nat) (st : AuthState) (tok : String) :
    (lookupKey st.sessions tok = none →
      validate_session now st tok = (none, st))
    ∧ (∀ s : Session, lookupKey st.sessions tok = some s → now > s.expires →
        validate_session now st tok
          = (none, { st with sessions := delKey st.sessions tok })
        ∧ lookupKey (validate_session now st tok).2.sessions tok = none)
    ∧ (∀ s : Session, lookupKey st.sessions tok = some s → ¬ now > s.expires →
        validate_session now st tok
          = (some (J.obj [("user_id", .str s.user_id),
                          ("email", .str s.email),
                          ("expires", .str (toString s.expires))]), st)) := by
  refine ⟨?_, ?_, ?_⟩
  · intro h
    simp [validate_session, h]
  · intro s hs hexp
    have hmain : validate_session now st tok
        = (none, { st with sessions := delKey st.sessions tok }) := by
      simp [validate_session, hs, hexp]
    refine ⟨hmain, ?_⟩
    rw [hmain]
    exact lookupKey_delKey_self st.sessions tok
  · intro s hs hexp
    simp [validate_session, hs, hexp]

/-- C6 (witness): on a store holding one session for bob expiring at 100,
an unknown token yields none, lookup at time 200 yields none and deletes
the session, lookup at time 50 returns bob's info. -/
theorem C6_witness :
    validate_session 50 authStSess "zz" = (none, authStSess)
    ∧ validate_session 200 authStSess "t1"
        = (none, { authStSess with sessions := [] })
    ∧ lookupKey (validate_session 200 authStSess "t1").2.sessions "t1" = none
    ∧ validate_session 50 authStSess "t1"
        = (some (J.obj [("user_id", .str "bob"),
                        ("email", .str "bob@virginia.edu"),
                        ("expires", .str "100")]), authStSess) := by
  have h1 := (C6_validate_session 50 authStSess "zz").1 rfl
  have h2 := (C6_validate_session 200 authStSess "t1").2.1
    ⟨"bob", "bob@virginia.edu", 100, 0⟩ rfl (by decide)
  have h3 := (C6_validate_session 50 authStSess "t1").2.2
    ⟨"bob", "bob@virginia.edu", 100, 0⟩ rfl (by decide)
  exact ⟨h1, h2.1, h2.2, h3⟩

/-- C5: verifying a stored, unexpired token succeeds, deriving the user id
from the stored email, storing a session under the fresh session token, and
deleting the consumed pending link; verifying the same token again on the
resulting state fails with the invalid-or-expired error; verifying a token
past its expiry fails with the expired error and deletes the pending
record. -/
theorem C5_verify_magic_link (cfg : AuthConfig) (now now2 : Nat)
    (stok stok2 : String) (st : AuthState) (tok : String) (p : PendingLink)
    (hp : lookupKey st.pending_links tok = some p) :
    (¬ now > p.expires →
      verify_magic_link cfg now stok st tok
        = (J.obj [("success", .bool true),
                  ("session_token", .str stok),
                  ("user_id", .str (emailToUserId p.email)),
                  ("email", .str p.email),
                  ("expires",
                    .str (toString (now + cfg.session_duration_hours * 3600)))],
           { st with
             sessions := setKey st.sessions stok
               ⟨emailToUserId p.email, p.email,
                now + cfg.session_duration_hours * 3600, now⟩,
             pending_links := delKey st.pending_links tok })
      ∧ lookupKey (verify_magic_link cfg now stok st tok).2.pending_links tok
          = none
      ∧ lookupKey (verify_magic_link cfg now stok st tok).2.sessions stok
          = some ⟨emailToUserId p.email, p.email,
                  now + cfg.session_duration_hours * 3600, now⟩
      ∧ (verify_magic_link cfg now2 stok2
            (verify_magic_link cfg now stok st tok).2 tok).1
          = J.obj [("success", .bool false),
                   ("error", .str "Invalid or expired link")])
    ∧ (now > p.expires →
        verify_magic_link cfg now stok st tok
          = (J.obj [("success", .bool false),
                    ("error", .str "Link has expired")],
             { st with pending_links := delKey st.pending_links tok })
        ∧ lookupKey (verify_magic_link cfg now stok st tok).2.pending_links tok
            = none) := by
  constructor
  · intro hfresh
    have hmain : verify_magic_link cfg now stok st tok
        = (J.obj [("success", .bool true),
                  ("session_token", .str stok),
                  ("user_id", .str (emailToUserId p.email)),
                  ("email", .str p.email),
                  ("expires",
                    .str (toString (now + cfg.session_duration_hours * 3600)))],
           { st with
             sessions := setKey st.sessions stok
               ⟨emailToUserId p.email, p.email,
                now + cfg.session_duration_hours * 3600, now⟩,
             pending_links := delKey st.pending_links tok }) := by
      simp [verify_magic_link, hp, hfresh]
    refine ⟨hmain, ?_, ?_, ?_⟩
    · rw [hmain]
      exact lookupKey_delKey_self st.pending_links tok
    · rw [hmain]
      exact lookupKey_setKey_self st.sessions stok _
    · rw [hmain]
      have hdel : lookupKey (delKey st.pending_links tok) tok = none :=
        lookupKey_delKey_self st.pending_links tok
      simp [verify_magic_link, hdel]
  · intro hexp
    have hmain : verify_magic_link cfg now stok st tok
        = (J.obj [("success", .bool false),
                  ("error", .str "Link has expired")],
           { st with pending_links := delKey st.pending_links tok }) := by
      simp [verify_magic_link, hp, hexp]
    refine ⟨hmain, ?_⟩
    rw [hmain]
    exact lookupKey_delKey_self st.pending_links tok

/-- C5 (witness): on a store holding the pending link tok1 for
bob@virginia.edu expiring at 900, verification at time 100 succeeds with
user id "bob" and session expiry 86500; a second verification of tok1 fails
with the invalid-or-expired error; verification at time 1000 fails with the
expired error. -/
theorem C5_witness :
    (verify_magic_link {} 100 "sess1" authStPend "tok1").1
      = J.obj [("success", .bool true),
               ("session_token", .str "sess1"),
               ("user_id", .str "bob"),
               ("email", .str "bob@virginia.edu"),
               ("expires", .str "86500")]
    ∧ (verify_magic_link {} 200 "sess2"
          (verify_magic_link {} 100 "sess1" authStPend "tok1").2 "tok1").1
        = J.obj [("success", .bool false),
                 ("error", .str "Invalid or expired link")]
    ∧ (verify_magic_link {} 1000 "sess9" authStPend "tok1").1
        = J.obj [("success", .bool false),
                 ("error", .str "Link has expired")] := by
  have h := C5_verify_magic_link {} 100 200 "sess1" "sess2" authStPend "tok1"
    ⟨"bob@virginia.edu", 900⟩ rfl
  have h2 := C5_verify_magic_link {} 1000 0 "sess9" "x" authStPend "tok1"
    ⟨"bob@virginia.edu", 900⟩ rfl
  have ha := h.1 (by decide)
  refine ⟨?_, ha.2.2.2, ?_⟩
  · rw [ha.1]
    decide
  · rw [(h2.2 (by decide)).1]

/-- C1: for a loaded action whose skill is not user-callable on its agent
(not in the exposed set, for example listed only in hidden), handle_action
fails with the PermissionError and its event trace is empty: no lifecycle
hook runs, no precondition is evaluated, and no network call is made. -/
theorem C1_permission_gate (hub : Hub) (hooks : Hooks) (net : NetOracle)
    (gen : Nat → String) (action_id user_id : String)
    (params : List (String × J)) (action : HubAction) (agent : AgentConnection)
    (hinit : hub.initialized = true)
    (hact : get_action hub.actions action_id = some action)
    (hagent : lookupKey hub.agents action.agent = some agent)
    (hskill : agent.skill_exposure.is_user_callable action.skill = false) :
    handle_action hub hooks net gen action_id user_id params
      = (.error (.permissionError ("Skill " ++ action.skill ++
          " is not available in this hub")), []) := by
  simp [handle_action, hinit, hact, hagent, hskill]

/-- C1 (witness): on the test hub, dispatching action "a2", whose skill
"secret_grade" is listed only in hidden, yields the PermissionError with an
empty event trace. -/
theorem C1_witness :
    handle_action testHub hooksOk netOk genFixed "a2" "u1" []
      = (.error (.permissionError
          "Skill secret_grade is not available in this hub"), []) := by
  have h := C1_permission_gate testHub hooksOk netOk genFixed "a2" "u1" []
    { id := "a2", label := "Secret", icon := "s", agent := "tutor",
      skill := "secret_grade" }
    tutorAgent rfl rfl rfl rfl
  exact h

/-- C2 (counterexample): the claim that a raising on_action_start hook is
logged and swallowed fails: on the test hub, with a hook raising
"hook boom", handle_action propagates the exception instead of returning
the result {"result": "ok"} it returns when the hook succeeds. -/
theorem C2_counterexample :
    (handle_action testHub hooksStartRaises netOk genFixed "a1" "u1" []).1
      = .error (.exception "hook boom")
    ∧ (handle_action testHub hooksOk netOk genFixed "a1" "u1" []).1
      = .ok (J.obj [("result", .str "ok")])
    ∧ (Except.error (.exception "hook boom") : Except PyErr J)
      ≠ .ok (J.obj [("result", .str "ok")]) := by
  exact ⟨rfl, rfl, fun h => Except.noConfusion h⟩

/-- C2 (amended): a raising lifecycle hook aborts the dispatch pipeline:
if on_action_start raises, handle_action propagates that exception and
performs no precondition evaluation, no network call, and returns no
result; if on_action_complete raises after a successful routing — whether
the dispatch had no precondition, an empty precondition reference, or a
declared precondition whose check reported satisfied — handle_action
propagates that exception instead of returning the routed result. -/
theorem C2_hook_exception_aborts (hub : Hub) (hooks : Hooks) (net : NetOracle)
    (gen : Nat → String) (action_id user_id : String)
    (params : List (String × J)) (action : HubAction)
    (agent : AgentConnection) (e : PyErr)
    (hinit : hub.initialized = true)
    (hact : get_action hub.actions action_id = some action)
    (hagent : lookupKey hub.agents action.agent = some agent)
    (hskill : agent.skill_exposure.is_user_callable action.skill = true) :
    (hooks.on_action_start action_id user_id params = some e →
      handle_action hub hooks net gen action_id user_id params
        = (.error e, [.hookActionStart action_id user_id]))
    ∧ (∀ result revs,
        hooks.on_action_start action_id user_id params = none →
        action.precondition = none →
        route_action hub.agents net (gen 1) action user_id params
          = (.ok result, revs) →
        hooks.on_action_complete action_id user_id result = some e →
        handle_action hub hooks net gen action_id user_id params
          = (.error e, [Event.hookActionStart action_id user_id] ++ revs
              ++ [Event.hookActionComplete action_id user_id]))
    ∧ (∀ ref result revs,
        hooks.on_action_start action_id user_id params = none →
        action.precondition = some ref →
        ref.data.isEmpty = true →
        route_action hub.agents net (gen 1) action user_id params
          = (.ok result, revs) →
        hooks.on_action_complete action_id user_id result = some e →
        handle_action hub hooks net gen action_id user_id params
          = (.error e, [Event.hookActionStart action_id user_id] ++ revs
              ++ [Event.hookActionComplete action_id user_id]))
    ∧ (∀ ref pres pevs sat result revs,
        hooks.on_action_start action_id user_id params = none →
        action.precondition = some ref →
        ref.data.isEmpty = false →
        check_precondition hub.agents net (gen 0) ref user_id params
          = (pres, pevs) →
        pyGet pres "satisfied" (.bool false) = .ok sat →
        sat.truthy = true →
        route_action hub.agents net (gen 1) action user_id params
          = (.ok result, revs) →
        hooks.on_action_complete action_id user_id result = some e →
        handle_action hub hooks net gen action_id user_id params
          = (.error e, [Event.hookActionStart action_id user_id]
              ++ [Event.precondCheck ref] ++ pevs ++ revs
              ++ [Event.hookActionComplete action_id user_id])) := by
  refine ⟨?_, ?_, ?_, ?_⟩
  · intro hstart
    simp [handle_action, hinit, hact, hagent, hskill, hstart]
  · intro result revs hstart hpre hroute hcomplete
    simp [handle_action, hinit, hact, hagent, hskill, hstart, hpre, hroute,
      hcomplete]
  · intro ref result revs hstart hpre hemp hroute hcomplete
    simp [handle_action, hinit, hact, hagent, hskill, hstart, hpre, hemp,
      hroute, hcomplete]
  · intro ref pres pevs sat result revs hstart hpre hemp hcheck hsat htruthy
      hroute hcomplete
    simp [handle_action, hinit, hact, hagent, hskill, hstart, hpre, hemp,
      hcheck, hsat, htruthy, hroute, hcomplete]

/-- C2 (witness): on the test hubs, a raising on_action_start propagates
"hook boom" before any other step; a raising on_action_complete propagates
"late boom" after the network call, discarding the routed result, both on a
dispatch without a precondition and on a dispatch whose declared
precondition reported satisfied. -/
theorem C2_witness :
    handle_action testHub hooksStartRaises netOk genFixed "a1" "u1" []
      = (.error (.exception "hook boom"), [.hookActionStart "a1" "u1"])
    ∧ handle_action testHub hooksCompleteRaises netOk genFixed "a1" "u1" []
      = (.error (.exception "late boom"),
         [.hookActionStart "a1" "u1", .netCall "http://localhost:8020",
          .hookActionComplete "a1" "u1"])
    ∧ handle_action testHubPre hooksCompleteRaises netPending genFixed
        "a3" "u1" []
      = (.error (.exception "late boom"),
         [.hookActionStart "a3" "u1", .precondCheck "tutor.check_pending",
          .netCall "http://localhost:8020", .netCall "http://localhost:8020",
          .hookActionComplete "a3" "u1"]) := by
  have h1 := C2_hook_exception_aborts testHub hooksStartRaises netOk genFixed
    "a1" "u1" []
    { id := "a1", label := "Grade", icon := "g", agent := "tutor",
      skill := "grade" }
    tutorAgent (.exception "hook boom") rfl rfl rfl rfl
  have h2 := C2_hook_exception_aborts testHub hooksCompleteRaises netOk genFixed
    "a1" "u1" []
    { id := "a1", label := "Grade", icon := "g", agent := "tutor",
      skill := "grade" }
    tutorAgent (.exception "late boom") rfl rfl rfl rfl
  have h3 := C2_hook_exception_aborts testHubPre hooksCompleteRaises netPending
    genFixed "a3" "u1" []
    { id := "a3", label := "Review", icon := "r", agent := "tutor",
      skill := "grade", precondition := some "tutor.check_pending" }
    tutorAgent (.exception "late boom") rfl rfl rfl rfl
  have h3a := h3.2.2.2 "tutor.check_pending"
    (J.obj [("satisfied", .bool true), ("message", .str "ready"),
            ("action_required", .null)])
    [.netCall "http://localhost:8020"] (.bool true)
    (J.obj [("has_pending", .bool true), ("message", .str "ready")])
    [.netCall "http://localhost:8020"]
    rfl rfl rfl rfl rfl rfl rfl rfl
  exact ⟨h1.1 rfl,
    h2.2.1 (J.obj [("result", .str "ok")]) [.netCall "http://localhost:8020"]
      rfl rfl rfl rfl,
    by simpa using h3a⟩

/-- C3: checking a precondition whose parsed agent is unregistered fails
open, returning satisfied true with no network call and no exception (the
function is total); for a registered agent, a failing send fails closed,
returning satisfied false with str(e) as the message; a reference with no
"." separator defaults the agent to the progress-tracking agent
"le_veilleur". -/
theorem C3_check_precondition (agents : List (String × AgentConnection))
    (net : NetOracle) (mid ref uid : String) (ps : List (String × J)) :
    (lookupKey agents (precond_ref_parts ref).1 = none →
      check_precondition agents net mid ref uid ps
        = (J.obj [("satisfied", .bool true)], []))
    ∧ (∀ (agent : AgentConnection) (e : PyErr),
        lookupKey agents (precond_ref_parts ref).1 = some agent →
        send_to_agent net agent.url
          (build_a2a_message mid (precond_ref_parts ref).2 uid
            (dictUpdate [("student_id", J.str uid)] ps)) = .error e →
        check_precondition agents net mid ref uid ps
          = (J.obj [("satisfied", .bool false), ("message", .str e.msg)],
             [.netCall agent.url]))
    ∧ (charsSplitFirst '.' ref.data = none →
        precond_ref_parts ref = ("le_veilleur", ref)) := by
  refine ⟨?_, ?_, ?_⟩
  · intro h
    simp [check_precondition, h]
  · intro agent e hagent hsend
    simp [check_precondition, hagent, hsend]
  · intro h
    simp [precond_ref_parts, h]

/-- C3 (witness): "tracker.check_pending" with no registered tracker fails
open with no events; "tutor.check_pending" against a downed network fails
closed surfacing "connection refused"; the bare name "check_pending"
defaults the agent to "le_veilleur". -/
theorem C3_witness :
    check_precondition [] netOk "m" "tracker.check_pending" "u1" []
      = (J.obj [("satisfied", .bool true)], [])
    ∧ check_precondition [("tutor", tutorAgent)] netDown "m"
        "tutor.check_pending" "u1" []
      = (J.obj [("satisfied", .bool false),
                ("message", .str "connection refused")],
         [.netCall "http://localhost:8020"])
    ∧ precond_ref_parts "check_pending" = ("le_veilleur", "check_pending") := by
  have h1 := (C3_check_precondition [] netOk "m" "tracker.check_pending"
    "u1" []).1 rfl
  have h2 := (C3_check_precondition [("tutor", tutorAgent)] netDown "m"
    "tutor.check_pending" "u1" []).2.1 tutorAgent
    (.httpError "connection refused") rfl rfl
  have h3 := (C3_check_precondition [] netOk "m" "check_pending" "u1" []).2.2
    rfl
  exact ⟨h1, h2, h3⟩

/-- C8 (counterexample): the claim that a response carrying an error
indicator yields a propagated error fails when a result field is also
present: on a body with both "result" and "error", _send_to_agent returns
the unwrapped result, not an error. -/
theorem C8_counterexample :
    hasKey [("result", J.obj [("x", J.num 1)]), ("error", J.str "boom")]
      "error" = true
    ∧ send_to_agent netBoth "http://a" (J.obj [])
        = .ok (J.obj [("x", .num 1)]) := by
  exact ⟨rfl, rfl⟩

/-- C8 (amended): a parsed response body carrying a "result" field yields
exactly what _extract_result makes of it, even when an "error" field is
also present; a body with no "result" field but an "error" field yields a
propagated agent error; an object body with neither field is returned
verbatim. Unwrapping returns a result object without an "artifacts" key
verbatim, returns the data of the first data-kind part of the first
artifact of a non-empty artifacts list, and raises a propagated
TypeError on malformed results such as a non-container result or a truthy
non-list artifacts value. -/
theorem C8_response_unwrapping (net : NetOracle) (url : String) (msg : J)
    (kvs : List (String × J)) (hbody : net url msg = .ok (J.obj kvs)) :
    (∀ r, lookupKey kvs "result" = some r →
      send_to_agent net url msg = extract_result r)
    ∧ (∀ v, hasKey kvs "result" = false → lookupKey kvs "error" = some v →
        send_to_agent net url msg
          = .error (.exception ("Agent error: " ++ pyStr v)))
    ∧ (hasKey kvs "result" = false → hasKey kvs "error" = false →
        send_to_agent net url msg = .ok (J.obj kvs))
    ∧ (∀ rkvs : List (String × J), hasKey rkvs "artifacts" = false →
        extract_result (.obj rkvs) = .ok (.obj rkvs))
    ∧ (∀ (rkvs akvs : List (String × J)) (a0 : J) (rest pl : List J) (d : J),
        lookupKey rkvs "artifacts" = some (.arr (a0 :: rest)) →
        a0 = .obj akvs →
        lookupKey akvs "parts" = some (.arr pl) →
        findDataPartE pl = .ok (some d) →
        extract_result (.obj rkvs) = .ok d)
    ∧ extract_result (.num 5)
        = .error (.typeError "argument of type 'int' is not iterable")
    ∧ extract_result (.obj [("artifacts", .num 5)])
        = .error (.typeError "object of type 'int' has no len()") := by
  refine ⟨?_, ?_, ?_, ?_, ?_, rfl, rfl⟩
  · intro r hr
    have hhas : hasKey kvs "result" = true := hasKey_of_lookup hr
    simp [send_to_agent, hbody, pyContains, hhas, pySubscript, hr]
  · intro v hres herr
    have hhas : hasKey kvs "error" = true := hasKey_of_lookup herr
    simp [send_to_agent, hbody, pyContains, hres, hhas, pySubscript, herr]
  · intro hres herr
    simp [send_to_agent, hbody, pyContains, hres, herr]
  · intro rkvs h
    simp [extract_result, pyContains, h]
  · intro rkvs akvs a0 rest pl d hart ha0 hparts hfind
    have hhas : hasKey rkvs "artifacts" = true := hasKey_of_lookup hart
    subst ha0
    simp [extract_result, pyContains, hhas, pySubscript, hart, J.truthy,
      pyLen, pyIndex0, pyGet, getKeyD, hparts, pyIterItems, hfind]

/-- C8 (witness): a body with only an "error" field yields the propagated
agent error; a body whose result carries artifacts with a data-kind part
yields that part's data. -/
theorem C8_witness :
    send_to_agent netErrOnly "http://a" (J.obj [])
      = .error (.exception "Agent error: boom")
    ∧ send_to_agent netArtifacts "http://a" (J.obj [])
      = .ok (J.obj [("score", .num 97)]) := by
  have h1 := (C8_response_unwrapping netErrOnly "http://a" (J.obj [])
    [("error", .str "boom")] rfl).2.1 (.str "boom") rfl rfl
  have h := C8_response_unwrapping netArtifacts "http://a" (J.obj [])
    [("result", J.obj [("artifacts", .arr [
      J.obj [("parts", .arr [
        J.obj [("kind", .str "text"), ("text", .str "hello")],
        J.obj [("kind", .str "data"),
               ("data", J.obj [("score", .num 97)])]])]])])] rfl
  have h2 := h.1
    (J.obj [("artifacts", .arr [
      J.obj [("parts", .arr [
        J.obj [("kind", .str "text"), ("text", .str "hello")],
        J.obj [("kind", .str "data"),
               ("data", J.obj [("score", .num 97)])]])]])]) rfl
  have h3 := h.2.2.2.2.1
    [("artifacts", J.arr [
      J.obj [("parts", .arr [
        J.obj [("kind", .str "text"), ("text", .str "hello")],
        J.obj [("kind", .str "data"),
               ("data", J.obj [("score", .num 97)])]])]])]
    [("parts", J.arr [
      J.obj [("kind", .str "text"), ("text", .str "hello")],
      J.obj [("kind", .str "data"),
             ("data", J.obj [("score", .num 97)])]])]
    (J.obj [("parts", .arr [
      J.obj [("kind", .str "text"), ("text", .str "hello")],
      J.obj [("kind", .str "data"),
             ("data", J.obj [("score", .num 97)])]])])
    []
    [J.obj [("kind", .str "text"), ("text", .str "hello")],
     J.obj [("kind", .str "data"), ("data", J.obj [("score", .num 97)])]]
    (J.obj [("score", .num 97)])
    rfl rfl rfl rfl
  exact ⟨h1, h2.trans h3⟩

/-- C10: requesting a second magic link for an email with a pending link
does not invalidate the first: after two sends with distinct tokens, both
tokens are simultaneously pending, and each verifies successfully exactly
once, in either order, before expiry, each producing its own session for
the same derived user id. -/
theorem C10_two_pending_links (cfg : AuthConfig) (email : String)
    (st0 st1 st2 : AuthState) (t1 t2 s1 s2 : String) (n1 n2 v1 v2 : Nat)
    (hdom : cfg.validate_email email = true)
    (hts : t1 ≠ t2) (hss : s1 ≠ s2)
    (hv1a : ¬ v1 > n1 + 900) (hv1b : ¬ v1 > n2 + 900)
    (hv2a : ¬ v2 > n1 + 900) (hv2b : ¬ v2 > n2 + 900)
    (hst1 : st1 = (send_magic_link cfg n1 t1 st0 email).2)
    (hst2 : st2 = (send_magic_link cfg n2 t2 st1 email).2) :
    lookupKey st2.pending_links t1 = some ⟨email, n1 + 900⟩
    ∧ lookupKey st2.pending_links t2 = some ⟨email, n2 + 900⟩
    ∧ ((verify_magic_link cfg v1 s1 st2 t1).1).getD "success" .null
        = .bool true
    ∧ ((verify_magic_link cfg v1 s1 st2 t1).1).getD "user_id" .null
        = .str (emailToUserId email)
    ∧ ((verify_magic_link cfg v2 s2
          (verify_magic_link cfg v1 s1 st2 t1).2 t2).1).getD "success" .null
        = .bool true
    ∧ ((verify_magic_link cfg v2 s2
          (verify_magic_link cfg v1 s1 st2 t1).2 t2).1).getD "user_id" .null
        = .str (emailToUserId email)
    ∧ lookupKey ((verify_magic_link cfg v2 s2
          (verify_magic_link cfg v1 s1 st2 t1).2 t2).2).sessions s1
        = some ⟨emailToUserId email, email,
                v1 + cfg.session_duration_hours * 3600, v1⟩
    ∧ lookupKey ((verify_magic_link cfg v2 s2
          (verify_magic_link cfg v1 s1 st2 t1).2 t2).2).sessions s2
        = some ⟨emailToUserId email, email,
                v2 + cfg.session_duration_hours * 3600, v2⟩
    ∧ ((verify_magic_link cfg v1 s1 st2 t2).1).getD "success" .null
        = .bool true
    ∧ ((verify_magic_link cfg v1 s1 st2 t2).1).getD "user_id" .null
        = .str (emailToUserId email)
    ∧ ((verify_magic_link cfg v2 s2
          (verify_magic_link cfg v1 s1 st2 t2).2 t1).1).getD "success" .null
        = .bool true
    ∧ ((verify_magic_link cfg v2 s2
          (verify_magic_link cfg v1 s1 st2 t2).2 t1).1).getD "user_id" .null
        = .str (emailToUserId email) := by
  have hp1 : st1.pending_links = setKey st0.pending_links t1 ⟨email, n1 + 900⟩ := by
    rw [hst1]
    simp [send_magic_link, hdom]
  have hp2 : st2.pending_links = setKey st1.pending_links t2 ⟨email, n2 + 900⟩ := by
    rw [hst2]
    simp [send_magic_link, hdom]
  have hA : lookupKey st2.pending_links t1 = some ⟨email, n1 + 900⟩ := by
    rw [hp2, lookupKey_setKey_other _ _ _ _ hts, hp1]
    exact lookupKey_setKey_self _ _ _
  have hB : lookupKey st2.pending_links t2 = some ⟨email, n2 + 900⟩ := by
    rw [hp2]
    exact lookupKey_setKey_self _ _ _
  have hr1 : verify_magic_link cfg v1 s1 st2 t1
      = (J.obj [("success", .bool true),
                ("session_token", .str s1),
                ("user_id", .str (emailToUserId email)),
                ("email", .str email),
                ("expires",
                  .str (toString (v1 + cfg.session_duration_hours * 3600)))],
         { pending_links := delKey st2.pending_links t1,
           sessions := setKey st2.sessions s1
             ⟨emailToUserId email, email,
              v1 + cfg.session_duration_hours * 3600, v1⟩ }) := by
    simp [verify_magic_link, hA, hv1a]
  have hb2 : lookupKey (delKey st2.pending_links t1) t2
      = some ⟨email, n2 + 900⟩ := by
    rw [lookupKey_delKey_other _ _ _ (Ne.symm hts)]
    exact hB
  have hr2 : verify_magic_link cfg v2 s2
      { pending_links := delKey st2.pending_links t1,
        sessions := setKey st2.sessions s1
          ⟨emailToUserId email, email,
           v1 + cfg.session_duration_hours * 3600, v1⟩ } t2
      = (J.obj [("success", .bool true),
                ("session_token", .str s2),
                ("user_id", .str (emailToUserId email)),
                ("email", .str email),
                ("expires",
                  .str (toString (v2 + cfg.session_duration_hours * 3600)))],
         { pending_links := delKey (delKey st2.pending_links t1) t2,
           sessions := setKey (setKey st2.sessions s1
             ⟨emailToUserId email, email,
              v1 + cfg.session_duration_hours * 3600, v1⟩) s2
             ⟨emailToUserId email, email,
              v2 + cfg.session_duration_hours * 3600, v2⟩ }) := by
    simp [verify_magic_link, hb2, hv2b]
  have hr1b : verify_magic_link cfg v1 s1 st2 t2
      = (J.obj [("success", .bool true),
                ("session_token", .str s1),
                ("user_id", .str (emailToUserId email)),
                ("email", .str email),
                ("expires",
                  .str (toString (v1 + cfg.session_duration_hours * 3600)))],
         { pending_links := delKey st2.pending_links t2,
           sessions := setKey st2.sessions s1
             ⟨emailToUserId email, email,
              v1 + cfg.session_duration_hours * 3600, v1⟩ }) := by
    simp [verify_magic_link, hB, hv1b]
  have hb1 : lookupKey (delKey st2.pending_links t2) t1
      = some ⟨email, n1 + 900⟩ := by
    rw [lookupKey_delKey_other _ _ _ hts]
    exact hA
  have hr2b : verify_magic_link cfg v2 s2
      { pending_links := delKey st2.pending_links t2,
        sessions := setKey st2.sessions s1
          ⟨emailToUserId email, email,
           v1 + cfg.session_duration_hours * 3600, v1⟩ } t1
      = (J.obj [("success", .bool true),
                ("session_token", .str s2),
                ("user_id", .str (emailToUserId email)),
                ("email", .str email),
                ("expires",
                  .str (toString (v2 + cfg.session_duration_hours * 3600)))],
         { pending_links := delKey (delKey st2.pending_links t2) t1,
           sessions := setKey (setKey st2.sessions s1
             ⟨emailToUserId email, email,
              v1 + cfg.session_duration_hours * 3600, v1⟩) s2
             ⟨emailToUserId email, email,
              v2 + cfg.session_duration_hours * 3600, v2⟩ }) := by
    simp [verify_magic_link, hb1, hv2a]
  refine ⟨hA, hB, ?_, ?_, ?_, ?_, ?_, ?_, ?_, ?_, ?_, ?_⟩
  · rw [hr1]
    rfl
  · rw [hr1]
    rfl
  · rw [hr1]
    dsimp only
    rw [hr2]
    rfl
  · rw [hr1]
    dsimp only
    rw [hr2]
    rfl
  · rw [hr1]
    dsimp only
    rw [hr2]
    dsimp only
    rw [lookupKey_setKey_other _ _ _ _ hss]
    exact lookupKey_setKey_self _ _ _
  · rw [hr1]
    dsimp only
    rw [hr2]
    dsimp only
    exact lookupKey_setKey_self _ _ _
  · rw [hr1b]
    rfl
  · rw [hr1b]
    rfl
  · rw [hr1b]
    dsimp only
    rw [hr2b]
    rfl
  · rw [hr1b]
    dsimp only
    rw [hr2b]
    rfl

/-- C10 (witness): for bob@virginia.edu with tokens tA (sent at 0) and tB
(sent at 10), both are pending, and verifying tA at 100 then tB at 200
succeeds each time with user id "bob", leaving both sessions stored. -/
theorem C10_witness :
    lookupKey ((send_magic_link {} 10 "tB"
      (send_magic_link {} 0 "tA" {} "bob@virginia.edu").2
      "bob@virginia.edu").2).pending_links "tA"
      = some ⟨"bob@virginia.edu", 900⟩
    ∧ lookupKey ((send_magic_link {} 10 "tB"
        (send_magic_link {} 0 "tA" {} "bob@virginia.edu").2
        "bob@virginia.edu").2).pending_links "tB"
      = some ⟨"bob@virginia.edu", 910⟩
    ∧ ((verify_magic_link {} 100 "sA"
        (send_magic_link {} 10 "tB"
          (send_magic_link {} 0 "tA" {} "bob@virginia.edu").2
          "bob@virginia.edu").2 "tA").1).getD "user_id" .null
      = .str "bob"
    ∧ ((verify_magic_link {} 200 "sB"
        (verify_magic_link {} 100 "sA"
          (send_magic_link {} 10 "tB"
            (send_magic_link {} 0 "tA" {} "bob@virginia.edu").2
            "bob@virginia.edu").2 "tA").2 "tB").1).getD "user_id" .null
      = .str "bob"
    ∧ lookupKey (((verify_magic_link {} 200 "sB"
        (verify_magic_link {} 100 "sA"
          (send_magic_link {} 10 "tB"
            (send_magic_link {} 0 "tA" {} "bob@virginia.edu").2
            "bob@virginia.edu").2 "tA").2 "tB").2).sessions) "sA"
      = some ⟨"bob", "bob@virginia.edu", 86500, 100⟩ := by
  have h := C10_two_pending_links {} "bob@virginia.edu" {}
    (send_magic_link {} 0 "tA" {} "bob@virginia.edu").2
    (send_magic_link {} 10 "tB"
      (send_magic_link {} 0 "tA" {} "bob@virginia.edu").2
      "bob@virginia.edu").2
    "tA" "tB" "sA" "sB" 0 10 100 200 rfl (by decide) (by decide)
    (by decide) (by decide) (by decide) (by decide) rfl rfl
  refine ⟨h.1, h.2.1, ?_, ?_, ?_⟩
  · exact h.2.2.2.1.trans (by decide)
  · exact h.2.2.2.2.2.1.trans (by decide)
  · exact h.2.2.2.2.2.2.1.trans (by decide)
